import Mathlib

/-
Verification of the mock-server-scenario-example repository: a shared HTTP
interception engine (reverse-insertion-order, first-match handler matching;
use / resetHandlers lifecycle; a Node-context and a browser-context adapter),
the scenario library (happyPath / errorPath from
src/mock-backend/mock-scenarios.js) and the example App component
(src/App.js and its then/catch variant).

The interception engine itself is the msw dependency and its code is not in
this repository; the engine definitions below are modelled from the spec
(sections 3, 4.1, 4.2, 4.3 and 7).  The scenario functions, the App
component's submit logic and the bootstrap sequence are translated from the
repository's own source files.
-/

/-- Modelled from the spec: the enumerated HTTP method set of a Handler
(section 3, "method: one of a small enumerated set"). -/
inductive Method
  | GET
  | POST
  | PUT
  | PATCH
  | DELETE
deriving DecidableEq, Repr

/-- Modelled from the spec: an intercepted request carries method, url,
headers and body (section 3, the arguments of respond). -/
structure Request where
  method : Method
  url : String
  headers : List (String × String)
  body : String
deriving DecidableEq, Repr

/-- Modelled from the spec: a response descriptor
(section 6, statusCode / headers / body). -/
structure ResponseDesc where
  statusCode : Nat
  headers : List (String × String)
  body : String
deriving DecidableEq, Repr

/-- Modelled from the spec: a respond function returns a response description
or the sentinel meaning pass through to the real network (section 3). -/
inductive RespondResult
  | passthrough
  | respond (d : ResponseDesc)
deriving DecidableEq, Repr

/-- Modelled from the spec: a Handler is a method, a url pattern and a
response-producing function (section 3). -/
structure Handler where
  method : Method
  urlPattern : String
  respond : Request → RespondResult

/-- Modelled from the spec: urlPattern matching supports exact match and a
leading-wildcard token, as in the example pattern for the submit endpoint
(section 3): a pattern beginning with the wildcard matches any url that ends
with the remainder of the pattern; any other pattern matches only the
identical url. -/
def patternMatches (pattern url : String) : Bool :=
  match pattern.data with
  | '*' :: rest => rest.isSuffixOf url.data
  | _ => pattern.data == url.data

/-- Modelled from the spec: a Handler matches a request when the methods are
equal and the url pattern matches the request url (section 4.1 step 2). -/
def handlerMatches (h : Handler) (r : Request) : Bool :=
  h.method == r.method && patternMatches h.urlPattern r.url

/-- Modelled from the spec: the Interception Engine state holds
baselineHandlers, activeHandlers and the running flag (section 3). -/
structure EngineState where
  baselineHandlers : List Handler
  activeHandlers : List Handler
  running : Bool

/-- Modelled from the spec: constructing an engine installs the baseline
handler set as both baselineHandlers and the initial activeHandlers; the
engine is not running until its start operation (sections 3 and 4.1). -/
def setupServer (baseline : List Handler) : EngineState :=
  { baselineHandlers := baseline, activeHandlers := baseline, running := false }

/-- Modelled from the spec: the start-equivalent operation transitions the
engine to its active interception state (section 4.1). -/
def listen (s : EngineState) : EngineState :=
  { s with running := true }

/-- Modelled from the spec: use appends one or more Handlers to
activeHandlers; later entries shadow earlier ones per the matching rule
(section 4.1, Operations). -/
def use (s : EngineState) (hs : List Handler) : EngineState :=
  { s with activeHandlers := s.activeHandlers ++ hs }

/-- Modelled from the spec: resetHandlers discards all handlers added since
start or the last reset and restores the baseline (sections 3 and 4.1). -/
def resetHandlers (s : EngineState) : EngineState :=
  { s with activeHandlers := s.baselineHandlers }

/-- Modelled from the spec: the matching algorithm walks activeHandlers in
reverse insertion order and the first match wins (section 4.1 steps 1-3). -/
def findMatch (handlers : List Handler) (r : Request) : Option Handler :=
  handlers.reverse.find? (fun h => handlerMatches h r)

/-- Modelled from the spec: the error taxonomy of section 7. -/
inductive EngineError
  | NoHandlerMatched
  | NoRealNetworkInTestContext
  | AlreadyRunning
  | NotRunning
  | ResponderFailure
deriving DecidableEq, Repr

/-- Modelled from the spec: in the Node context a request call either yields
a synthesized response or fails with an engine error (sections 4.2 and 7). -/
inductive NodeOutcome
  | response (d : ResponseDesc)
  | failed (e : EngineError)
deriving DecidableEq, Repr

/-- Modelled from the spec: the Node-context adapter raises NoHandlerMatched
for an unmatched request and NoRealNetworkInTestContext when a matched
handler signals passthrough, since there is no real network stack
(sections 4.2 and 7); it never synthesizes a default response. -/
def nodeHandleRequest (s : EngineState) (r : Request) : NodeOutcome :=
  match findMatch s.activeHandlers r with
  | none => NodeOutcome.failed EngineError.NoHandlerMatched
  | some h =>
    match h.respond r with
    | RespondResult.passthrough => NodeOutcome.failed EngineError.NoRealNetworkInTestContext
    | RespondResult.respond d => NodeOutcome.response d

/-- Modelled from the spec: in the browser context a request is either
answered with a mocked response or forwarded unchanged to the real network
(section 4.3). -/
inductive BrowserOutcome
  | mocked (d : ResponseDesc)
  | passthroughToNetwork (r : Request)
deriving DecidableEq, Repr

/-- Modelled from the spec: the browser-context adapter forwards an unmatched
request unchanged to the real network, and likewise a matched handler that
signals passthrough (section 4.3). -/
def browserHandleRequest (s : EngineState) (r : Request) : BrowserOutcome :=
  match findMatch s.activeHandlers r with
  | none => BrowserOutcome.passthroughToNetwork r
  | some h =>
    match h.respond r with
    | RespondResult.passthrough => BrowserOutcome.passthroughToNetwork r
    | RespondResult.respond d => BrowserOutcome.mocked d

/-- The handler installed by both scenario functions in
src/mock-backend/mock-scenarios.js: rest.post on the pattern for the submit
endpoint, responding with the given status and an empty body
(res with ctx.status). -/
def submitHandler (status : Nat) : Handler :=
  { method := Method.POST
    urlPattern := "*/api/submit"
    respond := fun _ =>
      RespondResult.respond { statusCode := status, headers := [], body := "" } }

/-- Scenario function happyPath from src/mock-backend/mock-scenarios.js:
server.use of a POST handler for the submit endpoint returning 200. -/
def happyPath (server : EngineState) : EngineState :=
  use server [submitHandler 200]

/-- Scenario function errorPath from src/mock-backend/mock-scenarios.js:
server.use of a POST handler for the submit endpoint returning 500. -/
def errorPath (server : EngineState) : EngineState :=
  use server [submitHandler 500]

/-- The displayed App state, initialised to Pristine in src/App.js
(useState) and set by onSubmit to Success or Error. -/
inductive AppState
  | Pristine
  | Success
  | Error
deriving DecidableEq, Repr

/-- How the fetch promise of the submit request settles: resolved with a
status code, or rejected (a network-level failure). -/
inductive FetchOutcome
  | resolved (status : Nat)
  | rejected
deriving DecidableEq, Repr

/-- The onSubmit continuation of src/App.js: on a resolved response,
status 200 sets Success and any other status sets Error; there is no catch
branch, so a rejected fetch leaves the state unchanged. -/
def onSubmit (state : AppState) (outcome : FetchOutcome) : AppState :=
  match outcome with
  | FetchOutcome.resolved status =>
    if status == 200 then AppState.Success else AppState.Error
  | FetchOutcome.rejected => state

/-- The onSubmit continuation of the App variant in src/unnamed/part_001:
the then branch sets Success on any resolved response and the catch branch
sets Error on a rejected fetch. -/
def onSubmitPart001 (state : AppState) (outcome : FetchOutcome) : AppState :=
  match outcome with
  | FetchOutcome.resolved _ => AppState.Success
  | FetchOutcome.rejected => AppState.Error

/-- The request issued by the post helper of src/App.js when the form is
submitted: a POST to the submit endpoint with a JSON content type and the
serialised form data as body. -/
def submitRequest : Request :=
  { method := Method.POST
    url := "/api/submit"
    headers := [("Content-Type", "application/json")]
    body := "\x7b\"example\":\"test\"\x7d" }

/-- A mocked response resolves the application's fetch promise with its
status code; an engine error surfaces through the same channel a real
network failure would, a rejected promise (spec section 7, propagation). -/
def fetchOutcomeOfNode (o : NodeOutcome) : FetchOutcome :=
  match o with
  | NodeOutcome.response d => FetchOutcome.resolved d.statusCode
  | NodeOutcome.failed _ => FetchOutcome.rejected

/-- A sequence of use calls applied to an engine state in order. -/
def applyUses (s : EngineState) (calls : List (List Handler)) : EngineState :=
  calls.foldl use s

/-- The App state reached from Pristine after a sequence of settled submit
requests, for a given onSubmit continuation. -/
def runApp (step : AppState → FetchOutcome → AppState) (events : List FetchOutcome) : AppState :=
  events.foldl step AppState.Pristine

/-- The effective resolution of a request against an engine state: the
RespondResult of the selected handler, if any. -/
def resolveRequest (s : EngineState) (r : Request) : Option RespondResult :=
  (findMatch s.activeHandlers r).map (fun h => h.respond r)

/-- Modelled from the spec: events observable in the live context after the
App bootstrap returns — completion of the asynchronous worker start
(section 4.3), or a request dispatched by application code. -/
inductive LiveEvent
  | startComplete
  | request (r : Request)
deriving DecidableEq, Repr

/-- Modelled from the spec: start completion makes the interception proxy
active; dispatching a request does not change the engine state. -/
def liveStepState (s : EngineState) : LiveEvent → EngineState
  | LiveEvent.startComplete => { s with running := true }
  | LiveEvent.request _ => s

/-- Fate of a request dispatched in the live context: escaped to the real
network unmocked because interception was not yet installed, or answered by
the installed adapter. -/
inductive LiveRequestFate
  | escapedUnmocked (r : Request)
  | answered (o : BrowserOutcome)
deriving DecidableEq, Repr

/-- Modelled from the spec: while running is false no interception occurs
and the request goes to the real network unmocked (section 3 invariant);
once running, the browser-context adapter handles it. -/
def liveDispatch (s : EngineState) (r : Request) : LiveRequestFate :=
  if s.running then LiveRequestFate.answered (browserHandleRequest s r)
  else LiveRequestFate.escapedUnmocked r

/-- The fates of all requests in one interleaving of post-bootstrap events. -/
def fatesOf (s : EngineState) : List LiveEvent → List LiveRequestFate
  | [] => []
  | LiveEvent.startComplete :: rest => fatesOf (liveStepState s LiveEvent.startComplete) rest
  | LiveEvent.request r :: rest => liveDispatch s r :: fatesOf s rest

/-- The worker state right after the useEffect bootstrap of src/App.js
returns: errorPath has registered its handler and worker.start() has been
called but not awaited, so the interception proxy is not yet installed. -/
def appBootWorker : EngineState :=
  errorPath (setupServer [])

/-- Appending one handler shadows the earlier list: the new handler is
selected when it matches, and matching otherwise falls back to the earlier
handlers. -/
theorem findMatch_append (H : List Handler) (h : Handler) (r : Request) :
    findMatch (H ++ [h]) r = if handlerMatches h r then some h else findMatch H r := by
  unfold findMatch
  rw [List.reverse_append]
  cases hm : handlerMatches h r with
  | true => simp [hm]
  | false => simp [hm]

/-- A sequence of use calls never changes the baseline handler set. -/
theorem applyUses_baselineHandlers (s : EngineState) (calls : List (List Handler)) :
    (applyUses s calls).baselineHandlers = s.baselineHandlers := by
  induction calls generalizing s with
  | nil => rfl
  | cons c rest ih => exact ih (use s c)

/-- Appending the same handler twice resolves every request exactly as
appending it once does. -/
theorem use_twice_resolve_same (s : EngineState) (h : Handler) (r : Request) :
    resolveRequest (use (use s [h]) [h]) r = resolveRequest (use s [h]) r := by
  have ha : (use (use s [h]) [h]).activeHandlers = (s.activeHandlers ++ [h]) ++ [h] := rfl
  have hb : (use s [h]).activeHandlers = s.activeHandlers ++ [h] := rfl
  unfold resolveRequest
  rw [ha, hb, findMatch_append, findMatch_append]
  cases hm : handlerMatches h r <;> simp [hm]

/-- Once the engine is running, every request in any interleaving of further
events is answered by the adapter; none escapes to the network unmocked. -/
theorem fates_after_ready (sched : List LiveEvent) :
    ∀ s : EngineState, s.running = true →
      ∀ f ∈ fatesOf s sched, ∃ o, f = LiveRequestFate.answered o := by
  induction sched with
  | nil =>
    intro s _ f hf
    simp [fatesOf] at hf
  | cons e rest ih =>
    intro s hrun f hf
    cases e with
    | startComplete =>
      exact ih (liveStepState s LiveEvent.startComplete) rfl f hf
    | request r =>
      rw [show fatesOf s (LiveEvent.request r :: rest)
            = liveDispatch s r :: fatesOf s rest from rfl] at hf
      cases hf with
      | head => exact ⟨browserHandleRequest s r, by simp [liveDispatch, hrun]⟩
      | tail _ htail => exact ih s hrun f htail

/-- Claim C1: if several handlers match a request, the engine selects the one
added most recently — for any decomposition of the active handler list where
handler h matches the request and every handler added after h does not, the
matching walk (reverse insertion order, first match wins) returns h, whatever
earlier handlers (matching or not) precede it. -/
theorem engine_selects_most_recent_match
    (H₁ H₂ : List Handler) (h : Handler) (r : Request)
    (hmatch : handlerMatches h r = true)
    (hlater : ∀ h2 ∈ H₂, handlerMatches h2 r = false) :
    findMatch (H₁ ++ h :: H₂) r = some h := by
  unfold findMatch
  rw [List.reverse_append, List.reverse_cons, List.find?_append, List.find?_append]
  have h2none : H₂.reverse.find? (fun x => handlerMatches x r) = none := by
    rw [List.find?_eq_none]
    intro x hx
    simp [hlater x (List.mem_reverse.mp hx)]
  rw [h2none]
  simp [hmatch]

/-- Witness for C1: with a baseline 200 handler registered first and an
override 500 handler registered last for the same pattern, matching the
submit request selects the 500 override. -/
theorem engine_selects_most_recent_match_witness :
    findMatch ([submitHandler 200] ++ submitHandler 500 :: []) submitRequest
      = some (submitHandler 500) :=
  engine_selects_most_recent_match [submitHandler 200] [] (submitHandler 500) submitRequest
    (by decide) (fun h2 hmem => absurd hmem (List.not_mem_nil h2))

/-- Claim C2: for every baseline handler set B installed at engine start and
every sequence of use calls made since start, resetHandlers restores
activeHandlers to exactly B, so after a reset every request resolves exactly
as it does against the baseline alone — no handler leaks from the previous
test case. -/
theorem resetHandlers_restores_baseline (B : List Handler) (calls : List (List Handler)) :
    (resetHandlers (applyUses (listen (setupServer B)) calls)).activeHandlers = B ∧
    ∀ r : Request,
      findMatch (resetHandlers (applyUses (listen (setupServer B)) calls)).activeHandlers r
        = findMatch B r := by
  have hb : (resetHandlers (applyUses (listen (setupServer B)) calls)).activeHandlers = B := by
    show (applyUses (listen (setupServer B)) calls).baselineHandlers = B
    rw [applyUses_baselineHandlers]
    rfl
  exact ⟨hb, fun r => by rw [hb]⟩

/-- Claim C3 evaluation at the failing input: with a 200 handler installed,
both App variants show Success on submit; with a 500 handler installed, the
status-checking App of src/App.js shows Error as the claim and the
repository's test require, but the then/catch variant of
src/unnamed/part_001 shows Success, because the mocked 500 response resolves
the fetch promise and its catch branch never runs. -/
theorem submit_scenarios_end_state :
    onSubmit AppState.Pristine (fetchOutcomeOfNode
        (nodeHandleRequest (happyPath (listen (setupServer []))) submitRequest))
      = AppState.Success ∧
    onSubmit AppState.Pristine (fetchOutcomeOfNode
        (nodeHandleRequest (errorPath (listen (setupServer []))) submitRequest))
      = AppState.Error ∧
    onSubmitPart001 AppState.Pristine (fetchOutcomeOfNode
        (nodeHandleRequest (happyPath (listen (setupServer []))) submitRequest))
      = AppState.Success ∧
    onSubmitPart001 AppState.Pristine (fetchOutcomeOfNode
        (nodeHandleRequest (errorPath (listen (setupServer []))) submitRequest))
      = AppState.Success :=
  ⟨rfl, rfl, rfl, rfl⟩

/-- Claim C4: in the Node-context adapter, a request that no active handler
matches makes the request call fail with an engine error — it is never
answered with a synthesized default response. -/
theorem node_unmatched_fails_loudly (s : EngineState) (r : Request)
    (hnone : findMatch s.activeHandlers r = none) :
    nodeHandleRequest s r = NodeOutcome.failed EngineError.NoHandlerMatched := by
  unfold nodeHandleRequest
  rw [hnone]

/-- Witness for C4: against a started engine with no handlers, the submit
request fails with NoHandlerMatched. -/
theorem node_unmatched_fails_loudly_witness :
    nodeHandleRequest (listen (setupServer [])) submitRequest
      = NodeOutcome.failed EngineError.NoHandlerMatched :=
  node_unmatched_fails_loudly (listen (setupServer [])) submitRequest rfl

/-- Claim C5: in the browser-context adapter, a request that no active
handler matches is forwarded unchanged to the real network rather than being
rejected or answered with a synthesized response. -/
theorem browser_unmatched_passes_through (s : EngineState) (r : Request)
    (hnone : findMatch s.activeHandlers r = none) :
    browserHandleRequest s r = BrowserOutcome.passthroughToNetwork r := by
  unfold browserHandleRequest
  rw [hnone]

/-- Witness for C5: against a started engine with no handlers, the submit
request passes through to the real network unchanged. -/
theorem browser_unmatched_passes_through_witness :
    browserHandleRequest (listen (setupServer [])) submitRequest
      = BrowserOutcome.passthroughToNetwork submitRequest :=
  browser_unmatched_passes_through (listen (setupServer [])) submitRequest rfl

/-- Claim C6: calling a scenario function (happyPath or errorPath) twice in
succession on the same handler-set owner leaves matching behavior unchanged:
every request resolves to the same effective response as after one call. -/
theorem scenario_functions_idempotent (s : EngineState) (r : Request) :
    resolveRequest (happyPath (happyPath s)) r = resolveRequest (happyPath s) r ∧
    resolveRequest (errorPath (errorPath s)) r = resolveRequest (errorPath s) r :=
  ⟨use_twice_resolve_same s (submitHandler 200) r,
   use_twice_resolve_same s (submitHandler 500) r⟩

/-- Claim C7: resetHandlers is idempotent — from every engine state, calling
it twice yields the same state (in particular the same activeHandlers) as
calling it once. -/
theorem resetHandlers_idempotent (s : EngineState) :
    resetHandlers (resetHandlers s) = resetHandlers s :=
  rfl

/-- Claim C8: each scenario function only appends a new handler to the
handler set it is given: the previous activeHandlers list is preserved
unchanged as a prefix, the new handler is appended after it, and the
baseline set is untouched — nothing is mutated, removed or replaced. -/
theorem scenario_functions_append_only (s : EngineState) :
    (happyPath s).activeHandlers = s.activeHandlers ++ [submitHandler 200] ∧
    (happyPath s).baselineHandlers = s.baselineHandlers ∧
    (errorPath s).activeHandlers = s.activeHandlers ++ [submitHandler 500] ∧
    (errorPath s).baselineHandlers = s.baselineHandlers :=
  ⟨rfl, rfl, rfl, rfl⟩

/-- Claim C9: because the App bootstrap calls the worker's start without
awaiting it, the schedule in which the submit request is dispatched before
start completion makes it escape to the real network unmocked; and once
start has completed, every request in every schedule is answered by the
adapter, so mocking is guaranteed only after startup has completed. -/
theorem live_start_not_awaited_race (sched : List LiveEvent) (f : LiveRequestFate) :
    fatesOf appBootWorker [LiveEvent.request submitRequest]
        = [LiveRequestFate.escapedUnmocked submitRequest] ∧
    (f ∈ fatesOf (liveStepState appBootWorker LiveEvent.startComplete) sched →
      ∃ o, f = LiveRequestFate.answered o) :=
  ⟨rfl, fun hf => fates_after_ready sched (liveStepState appBootWorker LiveEvent.startComplete)
    rfl f hf⟩

/-- Witness for C9: after start completion, dispatching the submit request
yields an answered fate (the mocked 500 response of the errorPath handler). -/
theorem live_start_not_awaited_race_witness :
    ∃ o, LiveRequestFate.answered
        (BrowserOutcome.mocked { statusCode := 500, headers := [], body := "" })
      = LiveRequestFate.answered o :=
  (live_start_not_awaited_race [LiveEvent.request submitRequest]
      (LiveRequestFate.answered
        (BrowserOutcome.mocked { statusCode := 500, headers := [], body := "" }))).2
    (by decide)

/-- Counterexample to claim C10 as stated: in the src/App.js variant a
rejected submit request is a settlement after which the state is neither
Success nor Error — it stays Pristine, because onSubmit has no catch
branch. -/
theorem app_settle_reject_not_success_or_error :
    ((onSubmit AppState.Pristine FetchOutcome.rejected == AppState.Success) ||
      (onSubmit AppState.Pristine FetchOutcome.rejected == AppState.Error)) = false ∧
    onSubmit AppState.Pristine FetchOutcome.rejected = AppState.Pristine := by
  decide

/-- Claim C10 as amended: in every variant of the App component the displayed
state starts at Pristine and only ever takes a value in Pristine, Success,
Error; after a submit request resolves the state is exactly one of Success
or Error (the part_001 variant guarantees this for rejections too, while the
src/App.js variant leaves the state unchanged on a rejection); and once the
state has left Pristine no operation returns it to Pristine. -/
theorem app_state_invariants (s : AppState) (status : Nat) (f : FetchOutcome) :
    runApp onSubmit [] = AppState.Pristine ∧
    runApp onSubmitPart001 [] = AppState.Pristine ∧
    (s = AppState.Pristine ∨ s = AppState.Success ∨ s = AppState.Error) ∧
    (onSubmit s (FetchOutcome.resolved status) = AppState.Success ∨
      onSubmit s (FetchOutcome.resolved status) = AppState.Error) ∧
    (onSubmitPart001 s (FetchOutcome.resolved status) = AppState.Success ∨
      onSubmitPart001 s (FetchOutcome.resolved status) = AppState.Error) ∧
    (onSubmitPart001 s FetchOutcome.rejected = AppState.Success ∨
      onSubmitPart001 s FetchOutcome.rejected = AppState.Error) ∧
    (s ≠ AppState.Pristine →
      onSubmit s f ≠ AppState.Pristine ∧ onSubmitPart001 s f ≠ AppState.Pristine) := by
  refine ⟨rfl, rfl, ?_, ?_, Or.inl rfl, Or.inr rfl, ?_⟩
  · cases s with
    | Pristine => exact Or.inl rfl
    | Success => exact Or.inr (Or.inl rfl)
    | Error => exact Or.inr (Or.inr rfl)
  · unfold onSubmit
    cases h200 : status == 200 with
    | true => exact Or.inl (by simp [h200])
    | false => exact Or.inr (by simp [h200])
  · intro hs
    constructor
    · cases f with
      | resolved st =>
        unfold onSubmit
        cases h200 : st == 200 <;> simp [h200]
      | rejected => exact hs
    · cases f with
      | resolved st => simp [onSubmitPart001]
      | rejected => simp [onSubmitPart001]

/-- Witness for the amended C10: from the Success state, a rejected submit
never returns the src/App.js variant to Pristine. -/
theorem app_state_invariants_witness :
    onSubmit AppState.Success FetchOutcome.rejected ≠ AppState.Pristine :=
  ((app_state_invariants AppState.Success 200 FetchOutcome.rejected).2.2.2.2.2.2
    (by decide)).1
